import Mathlib

/-!
Verification of the AuraFitGym front-end domain logic. The definitions below
are a shallow embedding of the membership and payment ledger logic found in
the pages of the repository: membership records, payment records, the
dashboard aggregates, the two plan catalogs, the payment form submission
gating, the submit handlers, and the status rendering fallbacks. Theorems
about the spec claims follow the definitions.
-/

namespace AuraFitGym

/-- Calendar date in the proleptic Gregorian calendar, year at least 1. -/
structure Date where
  year : Nat
  month : Nat
  day : Nat
deriving DecidableEq

/-- Gregorian leap year test. -/
def isLeap (y : Nat) : Bool :=
  (y % 4 == 0 && y % 100 != 0) || (y % 400 == 0)

/-- Number of days in month m of year y. -/
def daysInMonth (y m : Nat) : Nat :=
  if m == 2 then (if isLeap y then 29 else 28)
  else if m == 4 || m == 6 || m == 9 || m == 11 then 30
  else 31

/-- Number of days of year y that precede month m. -/
def daysBeforeMonth (y m : Nat) : Nat :=
  ((List.range (m - 1)).map (fun i => daysInMonth y (i + 1))).sum

/-- Day-count index of a date: day 1 is 0001-01-01, and adding n to the index
moves the date forward by exactly n days. -/
def toDayNumber (d : Date) : Nat :=
  365 * (d.year - 1) + (d.year - 1) / 4 - (d.year - 1) / 100 + (d.year - 1) / 400
    + daysBeforeMonth d.year d.month + d.day

/-- Payment record as used by the pages: amounts are integer Kyat values. -/
structure Payment where
  id : Nat
  member_id : Nat
  amount : Int
  method : String
  date : Date
  status : String
deriving DecidableEq

/-- Total revenue over a payment list: the reduce of the payment amounts
with initial accumulator 0, over every payment regardless of status
(PaymentsManagement.tsx line 83; the same expression is totalPaid in
MemberPayment.tsx line 85). -/
def totalRevenue (payments : List Payment) : Int :=
  payments.foldl (fun sum p => sum + p.amount) 0

/-- Predicate of the this-month filter: the month and the year of the payment
date both equal those of the current date, with no condition on the status
(AdminDashboard.tsx lines 81-90, MemberPayment.tsx lines 86-90). -/
def isThisMonth (now : Date) (p : Payment) : Bool :=
  (p.date.month == now.month) && (p.date.year == now.year)

/-- Payments of the current month (MemberPayment.tsx lines 86-90). -/
def thisMonthPayments (now : Date) (payments : List Payment) : List Payment :=
  payments.filter (isThisMonth now)

/-- Monthly revenue: the this-month payments reduced by amount
(AdminDashboard.tsx lines 81-90). -/
def thisMonthRevenue (now : Date) (payments : List Payment) : Int :=
  (thisMonthPayments now payments).foldl (fun sum p => sum + p.amount) 0

/-- Membership record; start_date and end_date are day-count indices. -/
structure MembershipRec where
  id : Nat
  member_id : Nat
  type : String
  duration : Nat
  fee : Int
  start_date : Nat
  end_date : Nat
  status : String
deriving DecidableEq

/-- Count of memberships whose status is active (AdminDashboard.tsx line 92,
activeCount in the memberships management page). -/
def activeMemberships (memberships : List MembershipRec) : Nat :=
  (memberships.filter (fun m => m.status == "active")).length

/-- Response shape of GET memberships-status. -/
structure MembershipStatusResponse where
  has_active_membership : Bool
  active_membership : Option MembershipRec
deriving DecidableEq

/-- Modelled from the spec: the resolver behind GET memberships-status is
backend code that is not part of src. Section 3 of the spec says the response
is computed by finding, among the memberships of the member, any whose status
is "active"; if none, has_active_membership is false and active_membership is
null. -/
def resolveMembershipStatus (memberships : List MembershipRec) : MembershipStatusResponse :=
  match memberships.find? (fun m => m.status == "active") with
  | some m => ⟨true, some m⟩
  | none => ⟨false, none⟩

/-- Modelled from the spec: the backend handler for POST memberships, which
derives end_date, is not part of src. Section 3 of the spec states the
creation invariant: end_date equals start_date plus duration days, which on
day-count indices is addition of the duration. -/
def createMembershipRecord (id member_id : Nat) (type : String) (duration : Nat)
    (fee : Int) (start_date : Nat) : MembershipRec :=
  ⟨id, member_id, type, duration, fee, start_date, start_date + duration, "active"⟩

/-- Catalog entry of the admin membership creation form. -/
structure PlanType where
  label : String
  duration : Nat
  fee : Int
deriving DecidableEq

/-- Admin-facing plan catalog (membershipTypes in the memberships management
page, lines 474-479). -/
def membershipTypes : List PlanType :=
  [⟨"Monthly", 30, 50000⟩, ⟨"Quarterly (3 months)", 90, 140000⟩,
   ⟨"Semi-Annual (6 months)", 180, 275000⟩, ⟨"Annual", 365, 550000⟩]

/-- Catalog entry of the member payment form. -/
structure Plan where
  name : String
  duration : Nat
  price : Int
deriving DecidableEq

/-- Member-facing plan catalog (membershipPlans in MemberPayment.tsx,
lines 40-45). -/
def membershipPlans : List Plan :=
  [⟨"Monthly", 30, 50000⟩, ⟨"Quarterly", 90, 135000⟩,
   ⟨"Semi-Annual", 180, 255000⟩, ⟨"Annual", 365, 480000⟩]

/-- Local form state of the member payment modal: CreatePaymentData without
member_id. -/
structure MemberPaymentForm where
  amount : Int
  method : String
deriving DecidableEq

/-- Local form state of the admin Record Payment modal. -/
structure AdminPaymentForm where
  member_id : Nat
  amount : Int
  method : String
deriving DecidableEq

/-- Payload of a create-payment request. -/
structure CreatePaymentData where
  member_id : Nat
  amount : Int
  method : String
deriving DecidableEq

/-- Payload of a create-membership request. -/
structure CreateMembershipData where
  member_id : Nat
  type : String
  duration : Nat
  fee : Int
deriving DecidableEq

/-- selectPlan (MemberPayment.tsx lines 81-83): spreads the form and sets the
amount to the plan price. -/
def selectPlan (f : MemberPaymentForm) (plan : Plan) : MemberPaymentForm :=
  { f with amount := plan.price }

/-- selectMembershipType (memberships management page lines 545-552): spreads
the form and sets type, duration and fee from the catalog entry. -/
def selectMembershipType (f : CreateMembershipData) (t : PlanType) : CreateMembershipData :=
  { f with type := t.label, duration := t.duration, fee := t.fee }

/-- Amount input onChange of the member payment form (MemberPayment.tsx
lines 258-266): sets the amount to the typed value. -/
def editAmount (f : MemberPaymentForm) (v : Int) : MemberPaymentForm :=
  { f with amount := v }

/-- Fee input onChange of the membership creation form. -/
def editFee (f : CreateMembershipData) (v : Int) : CreateMembershipData :=
  { f with fee := v }

/-- Disabled attribute of the member payment submit button (MemberPayment.tsx
line 281): isProcessing or the amount is at most 0. -/
def memberSubmitDisabled (isProcessing : Bool) (f : MemberPaymentForm) : Bool :=
  isProcessing || decide (f.amount ≤ 0)

/-- One activation of the member payment submit control: a disabled default
button blocks both click and implicit submission, so nothing happens;
otherwise handleSubmit posts the current member id together with the form
data (MemberPayment.tsx lines 47-68 and 279-285). The returned value is the
create-payment request that reaches the network, if any. -/
def memberPaymentClick (isProcessing : Bool) (member_id : Nat)
    (f : MemberPaymentForm) : Option CreatePaymentData :=
  if memberSubmitDisabled isProcessing f then none
  else some ⟨member_id, f.amount, f.method⟩

/-- Disabled attribute of the admin Record Payment submit button
(PaymentsManagement.tsx line 412): isCreating or the amount is at most 0. -/
def adminSubmitDisabled (isCreating : Bool) (f : AdminPaymentForm) : Bool :=
  isCreating || decide (f.amount ≤ 0)

/-- HTML constraint validation of the admin Record Payment form
(PaymentsManagement.tsx lines 325-337 and 348-357): the member select carries
required, which blocks submission exactly when the selected value is the
empty string; the selected value is the decimal rendering of member_id, and
the placeholder option has value 0, so the rendered value is "0" and is never
empty. The amount input carries required and min 0, blocking negative
values. -/
def adminFormInvalid (f : AdminPaymentForm) : Bool :=
  (toString f.member_id == "") || decide (f.amount < 0)

/-- One activation of the admin Record Payment submit control: a disabled
default button blocks, failing constraint validation blocks, otherwise
handleSubmit posts the form data unchanged (PaymentsManagement.tsx
lines 47-62). The returned value is the create-payment request that reaches
the network, if any. -/
def adminPaymentClick (isCreating : Bool) (f : AdminPaymentForm) : Option CreatePaymentData :=
  if adminSubmitDisabled isCreating f then none
  else if adminFormInvalid f then none
  else some ⟨f.member_id, f.amount, f.method⟩

/-- Outcome of the awaited create-payment request. -/
inductive ApiResult where
  | ok : ApiResult
  | err : String → ApiResult
deriving DecidableEq

/-- Client state touched by the member payment submit handler. -/
structure MemberPayState where
  formData : MemberPaymentForm
  showPaymentModal : Bool
  toasts : List String
  paymentsCache : List Payment
  refetchPayments : Nat
  refetchStatus : Nat
deriving DecidableEq

/-- handleSubmit of MemberPayment.tsx (lines 47-68), after the request
resolves: on success show a toast, close the modal, reset the form and
refetch payments and status; on rejection only show the error message. -/
def memberHandleSubmitResult (st : MemberPayState) (r : ApiResult) : MemberPayState :=
  match r with
  | .ok =>
    { st with
      toasts := st.toasts ++ ["Payment successful!"],
      showPaymentModal := false,
      formData := ⟨0, "Credit Card"⟩,
      refetchPayments := st.refetchPayments + 1,
      refetchStatus := st.refetchStatus + 1 }
  | .err msg => { st with toasts := st.toasts ++ [msg] }

/-- Client state touched by the admin payment submit handler. -/
structure AdminPayState where
  formData : AdminPaymentForm
  showCreateModal : Bool
  toasts : List String
  paymentsCache : List Payment
  refetchCount : Nat
deriving DecidableEq

/-- handleSubmit of PaymentsManagement.tsx (lines 47-62), after the request
resolves: on success show a toast, close the modal, reset the form and
refetch; on rejection only show the error message. -/
def adminHandleSubmitResult (st : AdminPayState) (r : ApiResult) : AdminPayState :=
  match r with
  | .ok =>
    { st with
      toasts := st.toasts ++ ["Payment recorded successfully!"],
      showCreateModal := false,
      formData := ⟨0, 0, "Credit Card"⟩,
      refetchCount := st.refetchCount + 1 }
  | .err msg => { st with toasts := st.toasts ++ [msg] }

/-- Style triple used for status rendering. -/
structure StatusStyle where
  bg : String
  text : String
  icon : String
deriving DecidableEq

/-- Completed entry of the payment status config table. -/
def completedConfig : StatusStyle :=
  ⟨"from-green-100 to-emerald-100", "text-green-700", "CheckCircle"⟩

/-- Pending entry of the payment status config table. -/
def pendingConfig : StatusStyle :=
  ⟨"from-yellow-100 to-amber-100", "text-yellow-700", "Clock"⟩

/-- Failed entry of the payment status config table. -/
def failedConfig : StatusStyle :=
  ⟨"from-red-100 to-orange-100", "text-red-700", "XCircle"⟩

/-- Payment status config table (PaymentsManagement.tsx lines 127-134). -/
def paymentStatusConfigs : List (String × StatusStyle) :=
  [("completed", completedConfig), ("pending", pendingConfig), ("failed", failedConfig)]

/-- Property names every plain JS object literal inherits from the Object
prototype (the seven standard methods plus the Annex B accessors): a bracket
lookup with one of these keys on an object without an own entry of that name
returns the inherited member, a truthy value (a function, or the prototype
object itself for the dunder proto accessor), never undefined. -/
def objectProtoKeys : List String :=
  ["constructor", "hasOwnProperty", "isPrototypeOf", "propertyIsEnumerable",
   "toLocaleString", "toString", "valueOf", "__proto__",
   "__defineGetter__", "__defineSetter__", "__lookupGetter__", "__lookupSetter__"]

/-- Value of a JS bracket lookup followed by the or-else fallback on a status
table: either a status style, or a truthy member inherited from the Object
prototype. An inherited member is not a style object, so destructuring bg,
text and icon from it yields undefined. -/
inductive LookupResult where
  | style : StatusStyle → LookupResult
  | protoMember : String → LookupResult
deriving DecidableEq

/-- Icon obtained by destructuring the lookup result, as the rendering code
does: defined for a style, undefined for an inherited prototype member. -/
def LookupResult.iconName : LookupResult → Option String
  | .style s => some s.icon
  | .protoMember _ => none

/-- getStatusConfig (PaymentsManagement.tsx lines 127-134): the expression
configs[status] || configs.completed on the object literal configs. The
bracket lookup returns the own entry when status is one of the three keys;
otherwise it walks the prototype chain, so for an Object prototype property
name it returns the truthy inherited member and the fallback never fires;
only when the lookup is undefined does the fallback yield the completed
entry. -/
def getStatusConfig (status : String) : LookupResult :=
  match paymentStatusConfigs.find? (fun c => c.fst == status) with
  | some c => .style c.snd
  | none =>
    if objectProtoKeys.contains status then .protoMember status
    else .style completedConfig

/-- Active entry of the membership status badge table. -/
def activeStyle : StatusStyle :=
  ⟨"from-green-100 to-emerald-100", "text-green-700", "CheckCircle"⟩

/-- Expired entry of the membership status badge table. -/
def expiredStyle : StatusStyle :=
  ⟨"from-red-100 to-orange-100", "text-red-700", "XCircle"⟩

/-- Cancelled entry of the membership status badge table. -/
def cancelledStyle : StatusStyle :=
  ⟨"from-gray-100 to-gray-200", "text-gray-700", "XCircle"⟩

/-- Membership status badge table (memberships management page,
lines 587-594). -/
def membershipStatusStyles : List (String × StatusStyle) :=
  [("active", activeStyle), ("expired", expiredStyle), ("cancelled", cancelledStyle)]

/-- getStatusBadge (memberships management page lines 587-594): the
expression styles[status] || styles.active on the object literal styles,
with the same prototype-chain semantics as getStatusConfig: an Object
prototype property name returns the truthy inherited member and the fallback
never fires; only an undefined lookup yields the active entry. -/
def getStatusBadge (status : String) : LookupResult :=
  match membershipStatusStyles.find? (fun c => c.fst == status) with
  | some c => .style c.snd
  | none =>
    if objectProtoKeys.contains status then .protoMember status
    else .style activeStyle

/-- Folding addition of the amounts from any initial accumulator is the
initial value plus the sum of the amounts. -/
theorem foldl_add_amount (l : List Payment) (init : Int) :
    l.foldl (fun s p => s + p.amount) init = init + (l.map Payment.amount).sum := by
  induction l generalizing init with
  | nil => simp
  | cons a t ih => simp [List.foldl_cons, ih, add_assoc]

/-- When the filter keeps exactly one element, the first match of the same
predicate is that element. -/
theorem find?_of_filter_eq_singleton {α : Type} (p : α → Bool) (l : List α) (m : α)
    (h : l.filter p = [m]) : l.find? p = some m := by
  induction l with
  | nil => simp at h
  | cons a t ih =>
    cases hpa : p a with
    | true =>
      rw [List.filter_cons_of_pos hpa] at h
      rw [List.find?_cons_of_pos _ hpa]
      have := List.cons.inj h
      exact congrArg some this.1
    | false =>
      rw [List.filter_cons_of_neg (by simp [hpa])] at h
      rw [List.find?_cons_of_neg _ (by simp [hpa])]
      exact ih h

/-- C1: for any list of memberships, when selecting by the predicate
status == "active" yields exactly one entry, the membership status resolver
returns has_active_membership = true together with that entry; when it yields
nothing, the resolver returns has_active_membership = false with
active_membership = null. -/
theorem c1_membership_status_resolver (l : List MembershipRec) (mb : MembershipRec) :
    (l.filter (fun m => m.status == "active") = [mb] →
      resolveMembershipStatus l = ⟨true, some mb⟩) ∧
    (l.filter (fun m => m.status == "active") = [] →
      resolveMembershipStatus l = ⟨false, none⟩) := by
  constructor
  · intro h
    unfold resolveMembershipStatus
    rw [find?_of_filter_eq_singleton _ _ _ h]
  · intro h
    unfold resolveMembershipStatus
    have hn : l.find? (fun m => m.status == "active") = none := by
      rw [List.find?_eq_none]
      intro x hx
      have := List.filter_eq_nil_iff.mp h x hx
      simpa using this
    rw [hn]

/-- Witness for C1 at a two-element list with one active entry and at a
one-element list with no active entry. -/
theorem c1_witness :
    resolveMembershipStatus
        [⟨1, 1, "Monthly", 30, 50000, 1, 31, "expired"⟩,
         ⟨2, 1, "Annual", 365, 550000, 40, 405, "active"⟩] =
      ⟨true, some ⟨2, 1, "Annual", 365, 550000, 40, 405, "active"⟩⟩ ∧
    resolveMembershipStatus [⟨1, 1, "Monthly", 30, 50000, 1, 31, "expired"⟩] =
      ⟨false, none⟩ :=
  ⟨(c1_membership_status_resolver
      [⟨1, 1, "Monthly", 30, 50000, 1, 31, "expired"⟩,
       ⟨2, 1, "Annual", 365, 550000, 40, 405, "active"⟩]
      ⟨2, 1, "Annual", 365, 550000, 40, 405, "active"⟩).1 (by decide),
   (c1_membership_status_resolver
      [⟨1, 1, "Monthly", 30, 50000, 1, 31, "expired"⟩]
      ⟨2, 1, "Annual", 365, 550000, 40, 405, "active"⟩).2 (by decide)⟩

/-- C2: for every payment list, of any statuses, the displayed total revenue
equals the sum of the payment amounts, exactly, and the total of the empty
list is 0. -/
theorem c2_total_revenue (l : List Payment) :
    totalRevenue l = (l.map Payment.amount).sum ∧ totalRevenue [] = 0 := by
  refine ⟨?_, rfl⟩
  simpa using foldl_add_amount l 0

/-- C3: for every form state with amount at most 0, neither the member
payment form nor the admin payment form issues a create-payment request:
the submit control is disabled, so activating it reaches no network call. -/
theorem c3_nonpositive_amount_blocks (isProcessing isCreating : Bool)
    (member_id : Nat) (mf : MemberPaymentForm) (af : AdminPaymentForm)
    (hm : mf.amount ≤ 0) (ha : af.amount ≤ 0) :
    memberPaymentClick isProcessing member_id mf = none ∧
    adminPaymentClick isCreating af = none := by
  constructor
  · simp [memberPaymentClick, memberSubmitDisabled, hm]
  · simp [adminPaymentClick, adminSubmitDisabled, ha]

/-- Witness for C3 at amount 0 in the member form and a negative amount in
the admin form. -/
theorem c3_witness :
    memberPaymentClick false 7 ⟨0, "Credit Card"⟩ = none ∧
    adminPaymentClick false ⟨3, -5000, "Cash"⟩ = none :=
  c3_nonpositive_amount_blocks false false 7 ⟨0, "Credit Card"⟩ ⟨3, -5000, "Cash"⟩
    (by decide) (by decide)

/-- C4: evaluation of the admin submit path at the failing input
member_id = 0, amount = 50000, method Credit Card, while no request is in
flight: the button is enabled (only the amount is tested), the required
member select is satisfied because the placeholder option renders the
non-empty value "0", and a create-payment request with member_id = 0 is
issued, contradicting the claim that such a submission never reaches the
network. -/
theorem c4_member_zero_reaches_network :
    adminPaymentClick false ⟨0, 50000, "Credit Card"⟩ =
      some ⟨0, 50000, "Credit Card"⟩ := by decide

/-- C5 counterexample: under day-count addition the membership created with
start_date 2024-01-01 and duration 365 does not end on 2025-01-01, because
2024 is a leap year of 366 days. -/
theorem c5_counterexample :
    (createMembershipRecord 1 1 "Annual" 365 550000 (toDayNumber ⟨2024, 1, 1⟩)).end_date ≠
      toDayNumber ⟨2025, 1, 1⟩ := by decide

/-- C5 amended: at creation end_date equals start_date plus duration days
under day-count addition, and in particular the membership with duration 365
and start_date 2024-01-01 has end_date 2024-12-31. -/
theorem c5_end_date_day_count (id member_id : Nat) (ty : String) (duration : Nat)
    (fee : Int) (start : Nat) :
    (createMembershipRecord id member_id ty duration fee start).end_date =
      start + duration ∧
    (createMembershipRecord 1 1 "Annual" 365 550000 (toDayNumber ⟨2024, 1, 1⟩)).end_date =
      toDayNumber ⟨2024, 12, 31⟩ :=
  ⟨rfl, by decide⟩

/-- C6: selecting a catalog plan sets the form fields to exactly the listed
values of that plan: amount = price in the member payment form, and
type = label, duration = duration and fee = fee in the membership creation
form; a manual edit made after selection replaces the catalog value, and the
edited value is the one submitted. -/
theorem c6_plan_selection_and_override (f : MemberPaymentForm) (plan : Plan)
    (g : CreateMembershipData) (t : PlanType) (v w : Int) (member_id : Nat)
    (hv : 0 < v) :
    (selectPlan f plan).amount = plan.price ∧
    (selectMembershipType g t).type = t.label ∧
    (selectMembershipType g t).duration = t.duration ∧
    (selectMembershipType g t).fee = t.fee ∧
    (editAmount (selectPlan f plan) v).amount = v ∧
    (editFee (selectMembershipType g t) w).fee = w ∧
    memberPaymentClick false member_id (editAmount (selectPlan f plan) v) =
      some ⟨member_id, v, f.method⟩ := by
  refine ⟨rfl, rfl, rfl, rfl, rfl, rfl, ?_⟩
  simp [memberPaymentClick, memberSubmitDisabled, editAmount, selectPlan,
    not_le.mpr hv]

/-- Witness for C6: select the member-facing Annual plan, then edit the
amount to 60000; the edited value is submitted. -/
theorem c6_witness :
    (selectPlan ⟨0, "Credit Card"⟩ ⟨"Annual", 365, 480000⟩).amount = 480000 ∧
    (selectMembershipType ⟨0, "", 30, 0⟩ ⟨"Monthly", 30, 50000⟩).type = "Monthly" ∧
    (selectMembershipType ⟨0, "", 30, 0⟩ ⟨"Monthly", 30, 50000⟩).duration = 30 ∧
    (selectMembershipType ⟨0, "", 30, 0⟩ ⟨"Monthly", 30, 50000⟩).fee = 50000 ∧
    (editAmount (selectPlan ⟨0, "Credit Card"⟩ ⟨"Annual", 365, 480000⟩) 60000).amount = 60000 ∧
    (editFee (selectMembershipType ⟨0, "", 30, 0⟩ ⟨"Monthly", 30, 50000⟩) 45000).fee = 45000 ∧
    memberPaymentClick false 9
        (editAmount (selectPlan ⟨0, "Credit Card"⟩ ⟨"Annual", 365, 480000⟩) 60000) =
      some ⟨9, 60000, "Credit Card"⟩ :=
  c6_plan_selection_and_override ⟨0, "Credit Card"⟩ ⟨"Annual", 365, 480000⟩
    ⟨0, "", 30, 0⟩ ⟨"Monthly", 30, 50000⟩ 60000 45000 9 (by decide)

/-- C7: the admin-facing and the member-facing plan catalogs disagree as
label-to-fee mappings: the Annual plan costs 550000 in the admin catalog and
480000 in the member catalog, while the duration lists of the two catalogs
are both 30, 90, 180, 365 days. -/
theorem c7_catalogs_diverge :
    (membershipTypes.find? (fun t => t.label == "Annual")).map PlanType.fee =
      some 550000 ∧
    (membershipPlans.find? (fun p => p.name == "Annual")).map Plan.price =
      some 480000 ∧
    (membershipTypes.find? (fun t => t.label == "Annual")).map PlanType.fee ≠
      (membershipPlans.find? (fun p => p.name == "Annual")).map Plan.price ∧
    membershipTypes.map PlanType.duration = [30, 90, 180, 365] ∧
    membershipPlans.map Plan.duration = [30, 90, 180, 365] := by
  refine ⟨by decide, by decide, by decide, rfl, rfl⟩

/-- C8: a payment is in the this-month subset exactly when it is in the list
and its date has the same month and the same year as the current date, with
no condition on the status; and the monthly revenue is the sum of the
amounts of exactly that subset. -/
theorem c8_this_month_filter (now : Date) (l : List Payment) (p : Payment) :
    (p ∈ thisMonthPayments now l ↔
      p ∈ l ∧ p.date.month = now.month ∧ p.date.year = now.year) ∧
    thisMonthRevenue now l = ((thisMonthPayments now l).map Payment.amount).sum := by
  constructor
  · simp [thisMonthPayments, List.mem_filter, isThisMonth]
  · simpa using foldl_add_amount (thisMonthPayments now l) 0

/-- C9: when the create-payment request is rejected, the client commits no
partial state: the form data, the open modal, the cached payment list and the
refetch counters are all unchanged and only an error toast is added; on
success the form is reset, the modal is closed and the lists are
refetched. -/
theorem c9_no_partial_state_on_failure (st : MemberPayState) (ast : AdminPayState)
    (msg : String) :
    (memberHandleSubmitResult st (.err msg)).formData = st.formData ∧
    (memberHandleSubmitResult st (.err msg)).showPaymentModal = st.showPaymentModal ∧
    (memberHandleSubmitResult st (.err msg)).paymentsCache = st.paymentsCache ∧
    (memberHandleSubmitResult st (.err msg)).refetchPayments = st.refetchPayments ∧
    (memberHandleSubmitResult st (.err msg)).refetchStatus = st.refetchStatus ∧
    (memberHandleSubmitResult st (.err msg)).toasts = st.toasts ++ [msg] ∧
    (memberHandleSubmitResult st .ok).formData = ⟨0, "Credit Card"⟩ ∧
    (memberHandleSubmitResult st .ok).showPaymentModal = false ∧
    (memberHandleSubmitResult st .ok).refetchPayments = st.refetchPayments + 1 ∧
    (memberHandleSubmitResult st .ok).refetchStatus = st.refetchStatus + 1 ∧
    (adminHandleSubmitResult ast (.err msg)).formData = ast.formData ∧
    (adminHandleSubmitResult ast (.err msg)).showCreateModal = ast.showCreateModal ∧
    (adminHandleSubmitResult ast (.err msg)).paymentsCache = ast.paymentsCache ∧
    (adminHandleSubmitResult ast (.err msg)).refetchCount = ast.refetchCount ∧
    (adminHandleSubmitResult ast (.err msg)).toasts = ast.toasts ++ [msg] ∧
    (adminHandleSubmitResult ast .ok).formData = ⟨0, 0, "Credit Card"⟩ ∧
    (adminHandleSubmitResult ast .ok).showCreateModal = false ∧
    (adminHandleSubmitResult ast .ok).refetchCount = ast.refetchCount + 1 :=
  ⟨rfl, rfl, rfl, rfl, rfl, rfl, rfl, rfl, rfl, rfl,
   rfl, rfl, rfl, rfl, rfl, rfl, rfl, rfl⟩

/-- Looking up an Object prototype property name on either status table
returns the inherited member, never a style and never the fallback entry. -/
theorem protoKey_lookup (u : String) (hu : objectProtoKeys.contains u = true) :
    getStatusConfig u = .protoMember u ∧ getStatusBadge u = .protoMember u := by
  have hmem : u ∈ objectProtoKeys := by simpa using hu
  fin_cases hmem <;> exact ⟨by decide, by decide⟩

/-- C10 counterexample: the string toString lies outside the enumerated
payment statuses and outside the membership statuses, yet getStatusConfig
returns the truthy member inherited from the Object prototype rather than the
completed configuration, the destructured icon is undefined, and
getStatusBadge likewise does not return the active style — refuting the
claim that every string outside the enumerations maps to the fallback
entry and that rendering is never left undefined. -/
theorem c10_counterexample :
    "toString" ≠ "completed" ∧ "toString" ≠ "pending" ∧ "toString" ≠ "failed" ∧
    "toString" ≠ "active" ∧ "toString" ≠ "expired" ∧ "toString" ≠ "cancelled" ∧
    getStatusConfig "toString" ≠ .style completedConfig ∧
    (getStatusConfig "toString").iconName = none ∧
    getStatusBadge "toString" ≠ .style activeStyle := by decide

/-- C10 amended: for every string outside the enumerated payment statuses
that is not an Object prototype property name, getStatusConfig returns the
completed configuration, and for every string outside the membership statuses
that is not an Object prototype property name, getStatusBadge returns the
active style; for an Object prototype property name the bracket lookup
returns the truthy inherited member, the fallback never fires, and the
destructured icon is undefined. -/
theorem c10_status_fallback_amended (s t u : String)
    (hs1 : s ≠ "completed") (hs2 : s ≠ "pending") (hs3 : s ≠ "failed")
    (hs4 : objectProtoKeys.contains s = false)
    (ht1 : t ≠ "active") (ht2 : t ≠ "expired") (ht3 : t ≠ "cancelled")
    (ht4 : objectProtoKeys.contains t = false)
    (hu : objectProtoKeys.contains u = true) :
    getStatusConfig s = .style completedConfig ∧
    getStatusBadge t = .style activeStyle ∧
    getStatusConfig u = .protoMember u ∧
    getStatusBadge u = .protoMember u ∧
    (getStatusConfig u).iconName = none := by
  have h1 : ("completed" == s) = false := beq_eq_false_iff_ne.mpr (Ne.symm hs1)
  have h2 : ("pending" == s) = false := beq_eq_false_iff_ne.mpr (Ne.symm hs2)
  have h3 : ("failed" == s) = false := beq_eq_false_iff_ne.mpr (Ne.symm hs3)
  have h4 : ("active" == t) = false := beq_eq_false_iff_ne.mpr (Ne.symm ht1)
  have h5 : ("expired" == t) = false := beq_eq_false_iff_ne.mpr (Ne.symm ht2)
  have h6 : ("cancelled" == t) = false := beq_eq_false_iff_ne.mpr (Ne.symm ht3)
  have hs5 : s ∉ objectProtoKeys := by simpa [objectProtoKeys] using hs4
  have ht5 : t ∉ objectProtoKeys := by simpa [objectProtoKeys] using ht4
  refine ⟨?_, ?_, (protoKey_lookup u hu).1, (protoKey_lookup u hu).2, ?_⟩
  · simp [getStatusConfig, paymentStatusConfigs, List.find?, h1, h2, h3, hs5]
  · simp [getStatusBadge, membershipStatusStyles, List.find?, h4, h5, h6, ht5]
  · rw [(protoKey_lookup u hu).1]
    rfl

/-- Witness for C10 at the unknown statuses refunded and suspended and the
prototype property name toString. -/
theorem c10_witness :
    getStatusConfig "refunded" = .style completedConfig ∧
    getStatusBadge "suspended" = .style activeStyle ∧
    getStatusConfig "toString" = .protoMember "toString" ∧
    getStatusBadge "toString" = .protoMember "toString" ∧
    (getStatusConfig "toString").iconName = none :=
  c10_status_fallback_amended "refunded" "suspended" "toString"
    (by decide) (by decide) (by decide) (by decide)
    (by decide) (by decide) (by decide) (by decide) (by decide)

end AuraFitGym
